import Mathlib

/-!
Verification of the supabase-storage-rust client library.

The library's core is a fluent request `Builder` holding a URL (path
segments and query string), a header map, an HTTP method and an optional
body.  Every public operation appends path segments, inserts headers,
sets the method or the body, and wraps the resulting state into an
`Executor`; `Executor.execute_from` dispatches the request once and
branches on the status code.  This file embeds that state and those
operations shallowly and proves the specification claims about them.
-/

namespace SupabaseStorage

/-! ## Percent / form encoding (models the `url` crate's query serializer) -/

/-- Uppercase hexadecimal digit, used by percent-encoding. -/
def hexDigitU (n : Nat) : Char :=
  if n < 10 then Char.ofNat (48 + n) else Char.ofNat (55 + n)

/-- Lowercase hexadecimal digit, used by `serde_json` control escapes. -/
def hexDigitL (n : Nat) : Char :=
  if n < 10 then Char.ofNat (48 + n) else Char.ofNat (87 + n)

/-- A percent-encoded byte, e.g. `%2F`. -/
def percentByte (b : Nat) : String :=
  String.mk ['%', hexDigitU (b / 16), hexDigitU (b % 16)]

/-- Characters that `application/x-www-form-urlencoded` leaves as-is. -/
def formSafe (c : Char) : Bool :=
  c.isAlphanum || c = '*' || c = '-' || c = '.' || c = '_'

/-- Form-urlencode one character: space becomes `+`, safe characters stay,
everything else is percent-encoded byte by byte (UTF-8). -/
def formEncodeChar (c : Char) : String :=
  if c = ' ' then "+"
  else if formSafe c then String.singleton c
  else String.join (((String.singleton c).toUTF8.toList).map (fun b => percentByte b.toNat))

/-- Form-urlencode a string, as `Url::query_pairs_mut().append_pair` does. -/
def formEncode (s : String) : String :=
  String.join (s.toList.map formEncodeChar)

/-- ASCII lowercasing of one character. -/
def lowerChar (c : Char) : Char :=
  if c.isUpper then Char.ofNat (c.toNat + 32) else c

/-- ASCII lowercasing, as `reqwest::header::HeaderName` normalizes keys. -/
def lowerStr (s : String) : String :=
  String.mk (s.toList.map lowerChar)

/-- `query_pairs_mut().append_pair(k, v)` on a raw query string: appends
`k=v` (form-encoded), separated from an existing non-empty query by `&`. -/
def appendPair (q : Option String) (k v : String) : Option String :=
  let pair := formEncode k ++ "=" ++ formEncode v
  match q with
  | none => some pair
  | some qs => some (if qs = "" then pair else qs ++ "&" ++ pair)

/-! ## URL, headers, method, body: the `Builder` state

Only the path and the query of the URL are ever modified by the library;
scheme, host and port are kept in an untouched `base` field.  Headers are
a `reqwest::header::HeaderMap`: keys are case-insensitive (normalized to
lowercase) and `insert` replaces the value for an existing key; the map is
modelled as an association list where the most recent insertion shadows.
The `reqwest::Client` field of the Rust struct carries no request state
used by any operation and is omitted. -/

/-- A `url::Url`: untouched base (scheme/host/port), decoded path segments,
raw query string. -/
structure Url where
  base : String
  pathSegments : List String
  query : Option String
deriving DecidableEq

/-- `url.path_segments_mut().unwrap().push(s)`: append one path segment. -/
def Url.pushSeg (u : Url) (s : String) : Url :=
  { u with pathSegments := u.pathSegments ++ [s] }

/-- `url.query_pairs_mut().append_pair(k, v)`. -/
def Url.appendQueryPair (u : Url) (k v : String) : Url :=
  { u with query := appendPair u.query k v }

/-- `url.set_query(Some(q))`: replace the whole query string. -/
def Url.setQuery (u : Url) (q : String) : Url :=
  { u with query := some q }

/-- Header map: association list, later insertions at the head shadow
earlier entries; keys stored lowercase, as `HeaderName` normalizes. -/
abbrev Headers := List (String × String)

/-- `HeaderMap::insert(k, v)`: replace any value previously held for `k`. -/
def hInsert (hs : Headers) (k v : String) : Headers :=
  (lowerStr k, v) :: hs

/-- `HeaderMap::get(k)`: the value currently held for `k`, case-insensitive. -/
def hLookup (hs : Headers) (k : String) : Option String :=
  (hs.find? (fun p => p.1 == lowerStr k)).map Prod.snd

/-- `reqwest::Method`, restricted to the verbs the library uses. -/
inductive Method where
  | GET
  | POST
  | PUT
  | DELETE
deriving DecidableEq

/-- `BodyType` (src/build/builder.rs): a string body or a `reqwest::Body`
wrapping a byte stream read from a file, identified here by its source. -/
inductive BodyType where
  | StringBody (s : String)
  | ReqwestBody (file : String)
deriving DecidableEq

/-- The `Builder` struct (src/build/builder.rs). -/
structure Builder where
  url : Url
  headers : Headers
  method : Method
  body : Option BodyType
deriving DecidableEq

/-- `Builder::new`: given URL and headers, method defaults to GET, no body. -/
def Builder.new (url : Url) (headers : Headers) : Builder :=
  { url := url, headers := headers, method := Method.GET, body := none }

/-- The `Executor` as produced by `Builder::create_executor`
(`Executor::new(self)`): it wraps the finished builder state. -/
structure Executor where
  builder : Builder
deriving DecidableEq

/-- `Builder::create_executor`. -/
def Builder.create_executor (b : Builder) : Executor :=
  ⟨b⟩

/-- `Builder::header(key, value)`: insert one header, return the builder. -/
def Builder.header (b : Builder) (key value : String) : Builder :=
  { b with headers := hInsert b.headers key value }

/-! ## JSON serialization (models `serde_json::to_string` for the model
structs of src/model, which serialize infallibly in field order) -/

/-- `serde_json` escaping of one character inside a JSON string. -/
def jsonEscapeChar (c : Char) : String :=
  if c = '"' then "\\\""
  else if c = '\\' then "\\\\"
  else if c = Char.ofNat 8 then "\\b"
  else if c = Char.ofNat 9 then "\\t"
  else if c = Char.ofNat 10 then "\\n"
  else if c = Char.ofNat 12 then "\\f"
  else if c = Char.ofNat 13 then "\\r"
  else if c.toNat < 32 then
    "\\u00" ++ String.mk [hexDigitL (c.toNat / 16), hexDigitL (c.toNat % 16)]
  else String.singleton c

/-- A JSON string literal. -/
def jsonStr (s : String) : String :=
  "\"" ++ String.join (s.toList.map jsonEscapeChar) ++ "\""

/-- A JSON boolean literal. -/
def jsonBool (b : Bool) : String :=
  if b then "true" else "false"

/-- An optional JSON value; `serde` writes `None` as `null`. -/
def jsonOpt {α : Type} (f : α → String) : Option α → String
  | none => "null"
  | some a => f a

/-- A JSON array of strings. -/
def jsonStrArr (xs : List String) : String :=
  "[" ++ String.intercalate "," (xs.map jsonStr) ++ "]"

/-! ## Model structs (src/model) -/

/-- `MoveCopyObject` (src/model/object.rs); fields renamed to camelCase on
serialization. -/
structure MoveCopyObject where
  bucket_id : String
  source_key : String
  destination_key : String
deriving DecidableEq

/-- `serde_json::to_string` of a `MoveCopyObject`. -/
def MoveCopyObject.toJson (m : MoveCopyObject) : String :=
  "\x7b\"bucketId\":" ++ jsonStr m.bucket_id
    ++ ",\"sourceKey\":" ++ jsonStr m.source_key
    ++ ",\"destinationKey\":" ++ jsonStr m.destination_key ++ "\x7d"

/-- `NewBucket` (src/model/bucket.rs); `u32` modelled as `Nat`. -/
structure NewBucket where
  name : String
  id : Option String
  public : Option Bool
  file_size_limit : Option Nat
  allowed_mime_types : Option (List String)
deriving DecidableEq

/-- `NewBucket::new(name)`. -/
def NewBucket.new (name : String) : NewBucket :=
  { name := name, id := none, public := none,
    file_size_limit := none, allowed_mime_types := none }

/-- `serde_json::to_string` of a `NewBucket` (derive `Serialize`, no field
skipping, so `None` becomes `null`). -/
def NewBucket.toJson (b : NewBucket) : String :=
  "\x7b\"name\":" ++ jsonStr b.name
    ++ ",\"id\":" ++ jsonOpt jsonStr b.id
    ++ ",\"public\":" ++ jsonOpt jsonBool b.public
    ++ ",\"file_size_limit\":" ++ jsonOpt toString b.file_size_limit
    ++ ",\"allowed_mime_types\":" ++ jsonOpt jsonStrArr b.allowed_mime_types ++ "\x7d"

/-- `BucketUpdate` (src/model/bucket.rs). -/
structure BucketUpdate where
  public : Bool
  file_size_limit : Nat
  allowed_mime_types : List String
deriving DecidableEq

/-- `serde_json::to_string` of a `BucketUpdate`. -/
def BucketUpdate.toJson (b : BucketUpdate) : String :=
  "\x7b\"public\":" ++ jsonBool b.public
    ++ ",\"file_size_limit\":" ++ toString b.file_size_limit
    ++ ",\"allowed_mime_types\":" ++ jsonStrArr b.allowed_mime_types ++ "\x7d"

/-- `FileOptions` (src/model/options.rs); `u64` cache seconds as `Nat`. -/
structure FileOptions where
  cache_control : Option Nat
  content_type : Option String
  upsert : Option Bool
deriving DecidableEq

/-- `Format` (src/model/options.rs). -/
inductive Format where
  | Origin
  | Avif
deriving DecidableEq

/-- The serialized name of a `Format` variant. -/
def Format.qs : Format → String
  | Format.Origin => "origin"
  | Format.Avif => "avif"

/-- `Resize` (src/model/options.rs). -/
inductive Resize where
  | Cover
  | Contain
  | Fill
deriving DecidableEq

/-- The serialized name of a `Resize` variant. -/
def Resize.qs : Resize → String
  | Resize.Cover => "cover"
  | Resize.Contain => "contain"
  | Resize.Fill => "fill"

/-- `Transform` (src/model/options.rs), fields in declaration order. -/
structure Transform where
  format : Option Format
  height : Option Nat
  quality : Option Nat
  resize : Option Resize
  width : Option Nat
deriving DecidableEq

/-- `serde_qs::to_string` of a `Transform`: present fields in declaration
order, joined by `&`; absent fields are omitted. -/
def transformQs (t : Transform) : String :=
  String.intercalate "&" (List.filterMap id
    [t.format.map (fun f => "format=" ++ f.qs),
     t.height.map (fun n => "height=" ++ toString n),
     t.quality.map (fun n => "quality=" ++ toString n),
     t.resize.map (fun r => "resize=" ++ r.qs),
     t.width.map (fun n => "width=" ++ toString n)])

/-! ## MIME guessing

Models the external `mime_guess` crate used by the upload operations:
`from_path(name).first_or_octet_stream()` looks up the (case-insensitive)
extension after the final dot of the last path component and falls back to
`application/octet-stream`. Only common extensions are tabulated. -/

/-- Split a character list on a separator; like `String.splitOn` for a
one-character separator. -/
def splitOnChar (sep : Char) : List Char → List (List Char)
  | [] => [[]]
  | c :: cs =>
    match splitOnChar sep cs with
    | [] => if c = sep then [[], []] else [[c]]
    | r :: rs => if c = sep then [] :: r :: rs else (c :: r) :: rs

/-- The extension of a path, as `std::path::Path::extension`: text after
the final dot of the final component; a leading-dot name alone has none. -/
def extOf (path : String) : Option String :=
  let name := (splitOnChar '/' path.toList).getLastD []
  let parts := splitOnChar '.' name
  if parts.length ≤ 1 then none
  else if parts.length = 2 && parts.headD [] = [] then none
  else some (String.mk (parts.getLastD []))

/-- Extension table of the `mime_guess` model. -/
def mimeOfExt (e : String) : Option String :=
  if e = "pdf" then some "application/pdf"
  else if e = "png" then some "image/png"
  else if e = "jpg" then some "image/jpeg"
  else if e = "jpeg" then some "image/jpeg"
  else if e = "gif" then some "image/gif"
  else if e = "webp" then some "image/webp"
  else if e = "txt" then some "text/plain"
  else if e = "html" then some "text/html"
  else if e = "json" then some "application/json"
  else none

/-- `mime_guess::from_path(path).first_or_octet_stream().to_string()`. -/
def mime_from_path (path : String) : String :=
  (((extOf path).map lowerStr).bind mimeOfExt).getD "application/octet-stream"

/-! ## Bucket operations (src/build/bucket.rs) -/

/-- `Builder::get_buckets`. -/
def Builder.get_buckets (b : Builder) : Executor :=
  let b := { b with url := b.url.pushSeg "bucket" }
  b.create_executor

/-- `Builder::create_bucket(body)`. -/
def Builder.create_bucket (b : Builder) (body : String) : Executor :=
  let b := { b with method := Method.POST }
  let b := { b with url := b.url.pushSeg "bucket" }
  let b := { b with body := some (BodyType.StringBody body) }
  b.create_executor

/-- `Builder::create_bucket_from(body)`. -/
def Builder.create_bucket_from (b : Builder) (nb : NewBucket) : Executor :=
  let b := { b with method := Method.POST }
  let b := { b with url := b.url.pushSeg "bucket" }
  let b := { b with body := some (BodyType.StringBody nb.toJson) }
  b.create_executor

/-- `Builder::empty_bucket(bucket_id)`. -/
def Builder.empty_bucket (b : Builder) (bucket_id : String) : Executor :=
  let b := { b with method := Method.POST }
  let b := { b with url := (b.url.pushSeg "bucket").pushSeg bucket_id }
  b.create_executor

/-- `Builder::get_bucket_details(bucket_id)`. -/
def Builder.get_bucket_details (b : Builder) (bucket_id : String) : Executor :=
  let b := { b with url := (b.url.pushSeg "bucket").pushSeg bucket_id }
  b.create_executor

/-- `Builder::update_bucket(bucket_id, body)`. -/
def Builder.update_bucket (b : Builder) (bucket_id body : String) : Executor :=
  let b := { b with headers := hInsert b.headers "Content-Type" "application/json" }
  let b := { b with method := Method.PUT }
  let b := { b with url := (b.url.pushSeg "bucket").pushSeg bucket_id }
  let b := { b with body := some (BodyType.StringBody body) }
  b.create_executor

/-- `Builder::update_bucket_from(bucket_id, body)`. -/
def Builder.update_bucket_from (b : Builder) (bucket_id : String) (bu : BucketUpdate) :
    Executor :=
  let b := { b with method := Method.PUT }
  let b := { b with url := (b.url.pushSeg "bucket").pushSeg bucket_id }
  let b := { b with body := some (BodyType.StringBody bu.toJson) }
  b.create_executor

/-- `Builder::delete_bucket(bucket_id)`. -/
def Builder.delete_bucket (b : Builder) (bucket_id : String) : Executor :=
  let b := { b with method := Method.DELETE }
  let b := { b with url := (b.url.pushSeg "bucket").pushSeg bucket_id }
  b.create_executor

/-! ## Object operations (src/build/object.rs) -/

/-- `Builder::delete_object_intern`. -/
def Builder.delete_object_intern (b : Builder) : Executor :=
  let b := { b with method := Method.DELETE }
  b.create_executor

/-- `Builder::delete_object(bucket_id, object)`. -/
def Builder.delete_object (b : Builder) (bucket_id object : String) : Executor :=
  let b := { b with url := ((b.url.pushSeg "object").pushSeg bucket_id).pushSeg object }
  b.delete_object_intern

/-- `Builder::delete_objects(bucket_id, body)`. -/
def Builder.delete_objects (b : Builder) (bucket_id body : String) : Executor :=
  let b := { b with headers := hInsert b.headers "Content-Type" "application/json" }
  let b := { b with url := (b.url.pushSeg "object").pushSeg bucket_id }
  let b := { b with body := some (BodyType.StringBody body) }
  b.delete_object_intern

/-- `Builder::get_object(bucket_name, object)`. -/
def Builder.get_object (b : Builder) (bucket_name object : String) : Executor :=
  let b := { b with url := ((b.url.pushSeg "object").pushSeg bucket_name).pushSeg object }
  b.create_executor

/-- `Builder::shared_upload(bucket_name, object, file_path)`: guess the
MIME type from the object name, extend the path, stream the file as body. -/
def Builder.shared_upload (b : Builder) (bucket_name object file_path : String) : Executor :=
  let b := { b with headers := hInsert b.headers "Content-Type" (mime_from_path object) }
  let b := { b with url := ((b.url.pushSeg "object").pushSeg bucket_name).pushSeg object }
  let b := { b with body := some (BodyType.ReqwestBody file_path) }
  b.create_executor

/-- `Builder::update_object_async(bucket_name, object, file_path)`. -/
def Builder.update_object_async (b : Builder) (bucket_name object file_path : String) :
    Executor :=
  let b := { b with method := Method.PUT }
  b.shared_upload bucket_name object file_path

/-- `Builder::upload_object(bucket_name, object, file_path)`. -/
def Builder.upload_object (b : Builder) (bucket_name object file_path : String) : Executor :=
  let b := { b with method := Method.POST }
  b.shared_upload bucket_name object file_path

/-- `Builder::download_object(bucket_id)`. -/
def Builder.download_object (b : Builder) (bucket_id : String) : Executor :=
  let b := { b with headers := hInsert b.headers "Content-Type" "application/json" }
  let b := { b with method := Method.POST }
  let b := { b with url := (b.url.pushSeg "object").pushSeg bucket_id }
  b.create_executor

/-! ## Move/copy (src/build/object/move_copy.rs) -/

/-- The `Action` enum. -/
inductive Action where
  | Move
  | Copy
deriving DecidableEq

/-- `From<Action> for &str`. -/
def Action.str : Action → String
  | Action.Move => "move"
  | Action.Copy => "copy"

/-- `Builder::action_intern(move_obj, action)`. -/
def Builder.action_intern (b : Builder) (move_obj : MoveCopyObject) (action : String) :
    Executor :=
  let b := { b with headers := hInsert b.headers "Content-Type" "application/json" }
  let b := { b with method := Method.POST }
  let b := { b with url := (b.url.pushSeg "object").pushSeg action }
  let b := { b with body := some (BodyType.StringBody move_obj.toJson) }
  b.create_executor

/-- `Builder::action_intern_from(move_obj, action)`. -/
def Builder.action_intern_from (b : Builder) (move_obj : MoveCopyObject) (action : String) :
    Executor :=
  b.action_intern move_obj action

/-- `Builder::action_intern_explicit(bucket_id, from, to, action)`. -/
def Builder.action_intern_explicit (b : Builder) (bucket_id source dest action : String) :
    Executor :=
  let move_body : MoveCopyObject :=
    { bucket_id := bucket_id, source_key := source, destination_key := dest }
  b.action_intern move_body action

/-- `Builder::move_object(bucket_id, from, to)`. -/
def Builder.move_object (b : Builder) (bucket_id source dest : String) : Executor :=
  b.action_intern_explicit bucket_id source dest Action.Move.str

/-- `Builder::move_object_from(obj)`. -/
def Builder.move_object_from (b : Builder) (obj : MoveCopyObject) : Executor :=
  b.action_intern obj Action.Move.str

/-- `Builder::copy_object(bucket_id, from, to)`. -/
def Builder.copy_object (b : Builder) (bucket_id source dest : String) : Executor :=
  b.action_intern_explicit bucket_id source dest Action.Copy.str

/-- `Builder::copy_object_from(obj)`. -/
def Builder.copy_object_from (b : Builder) (obj : MoveCopyObject) : Executor :=
  b.action_intern_from obj Action.Copy.str

/-! ## Signed URLs (src/build/object/sign.rs) -/

/-- `Builder::create_signed_url(bucket_name, object, body)`. -/
def Builder.create_signed_url (b : Builder) (bucket_name object body : String) : Executor :=
  let b := { b with headers := hInsert b.headers "Content-Type" "application/json" }
  let b := { b with method := Method.POST }
  let b := { b with url :=
    (((b.url.pushSeg "object").pushSeg "sign").pushSeg bucket_name).pushSeg object }
  let b := { b with body := some (BodyType.StringBody body) }
  b.create_executor

/-- `Builder::create_signed_urls(bucket_name, body)`. -/
def Builder.create_signed_urls (b : Builder) (bucket_name body : String) : Executor :=
  let b := { b with headers := hInsert b.headers "Content-Type" "application/json" }
  let b := { b with method := Method.POST }
  let b := { b with url := ((b.url.pushSeg "object").pushSeg "sign").pushSeg bucket_name }
  let b := { b with body := some (BodyType.StringBody body) }
  b.create_executor

/-- `Builder::get_object_with_pre_assigned_url(bucket_name, object, token)`. -/
def Builder.get_object_with_pre_assigned_url (b : Builder)
    (bucket_name object token : String) : Executor :=
  let b := { b with url :=
    (((b.url.pushSeg "object").pushSeg "sign").pushSeg bucket_name).pushSeg object }
  let b := { b with url := b.url.appendQueryPair "token" token }
  b.create_executor

/-! ## Signed uploads (src/build/object/upload.rs) -/

/-- The private `Builder::url(bucket_id, object)` helper of upload.rs:
push `object/upload/sign/{bucket_id}/{object}`. -/
def Builder.upload_sign_url (b : Builder) (bucket_id object : String) : Builder :=
  { b with url :=
    (((((b.url.pushSeg "object").pushSeg "upload").pushSeg "sign").pushSeg
      bucket_id).pushSeg object) }

/-- `Builder::create_signed_upload_url(bucket_id, object)`. -/
def Builder.create_signed_upload_url (b : Builder) (bucket_id object : String) : Executor :=
  let b := { b with method := Method.POST }
  let b := b.upload_sign_url bucket_id object
  b.create_executor

/-- `Builder::upload_to_signed_url_async(bucket_id, object, token,
file_path, file_options)`. -/
def Builder.upload_to_signed_url_async (b : Builder)
    (bucket_id object token file_path : String) (file_options : FileOptions) : Executor :=
  let b := { b with method := Method.PUT }
  let b := b.upload_sign_url bucket_id object
  let b :=
    match file_options.cache_control with
    | some cache_content =>
        { b with headers :=
          hInsert b.headers "cache-control" ("max-age=" ++ toString cache_content) }
    | none => b
  let b :=
    match file_options.content_type with
    | some content_type =>
        { b with headers := hInsert b.headers "content-type" content_type }
    | none => b
  let b := { b with url := b.url.appendQueryPair "token" token }
  let b := { b with body := some (BodyType.ReqwestBody file_path) }
  b.create_executor

/-- `Builder::upload_to_signed_url_no_options_async(bucket_id, object,
token, file_path)`. -/
def Builder.upload_to_signed_url_no_options_async (b : Builder)
    (bucket_id object token file_path : String) : Executor :=
  let b := { b with headers := hInsert b.headers "Content-Type" (mime_from_path object) }
  let b := { b with method := Method.PUT }
  let b := b.upload_sign_url bucket_id object
  let b := { b with url := b.url.appendQueryPair "token" token }
  let b := { b with body := some (BodyType.ReqwestBody file_path) }
  b.create_executor

/-- `Builder::upload_from_file_with_pre_assigned_url(bucket_id, object,
token, file, file_options)`; the open `tokio::fs::File` is identified by
its source. -/
def Builder.upload_from_file_with_pre_assigned_url (b : Builder)
    (bucket_id object token file : String) (file_options : FileOptions) : Executor :=
  let b :=
    match file_options.cache_control with
    | some cache_content =>
        { b with headers :=
          hInsert b.headers "cache-control" ("max-age=" ++ toString cache_content) }
    | none => b
  let b :=
    match file_options.content_type with
    | some content_type =>
        { b with headers := hInsert b.headers "content-type" content_type }
    | none =>
        { b with headers := hInsert b.headers "Content-Type" (mime_from_path object) }
  let b :=
    match file_options.upsert with
    | some upsert =>
        { b with headers := hInsert b.headers "x-upsert" (jsonBool upsert) }
    | none => b
  let b := { b with method := Method.PUT }
  let b := b.upload_sign_url bucket_id object
  let b := { b with url := b.url.appendQueryPair "token" token }
  let b := { b with body := some (BodyType.ReqwestBody file) }
  b.create_executor

/-! ## Listing, public objects, rendering -/

/-- `Builder::list_objects(bucket_id, body)` (src/build/object/list.rs). -/
def Builder.list_objects (b : Builder) (bucket_id body : String) : Executor :=
  let b := { b with headers := hInsert b.headers "Content-Type" "application/json" }
  let b := { b with method := Method.POST }
  let b := { b with url := ((b.url.pushSeg "object").pushSeg "list").pushSeg bucket_id }
  let b := { b with body := some (BodyType.StringBody body) }
  b.create_executor

/-- `Builder::get_public_object(bucket_id, object)` (public.rs). -/
def Builder.get_public_object (b : Builder) (bucket_id object : String) : Executor :=
  let b := { b with url :=
    (((b.url.pushSeg "object").pushSeg "public").pushSeg bucket_id).pushSeg object }
  b.create_executor

/-- `Builder::get_public_object_info(bucket_id, object)` (public.rs). -/
def Builder.get_public_object_info (b : Builder) (bucket_id object : String) : Executor :=
  let b := { b with url :=
    ((((b.url.pushSeg "object").pushSeg "info").pushSeg "public").pushSeg
      bucket_id).pushSeg object }
  b.create_executor

/-- `Builder::get_object_with_transform(bucket_id, object, transform)`
(render.rs): note `set_query` replaces the query wholesale. -/
def Builder.get_object_with_transform (b : Builder) (bucket_id object : String)
    (transform : Transform) : Executor :=
  let b := { b with url :=
    ((((b.url.pushSeg "render").pushSeg "image").pushSeg "authenticated").pushSeg
      bucket_id).pushSeg object }
  let b := { b with url := b.url.setQuery (transformQs transform) }
  b.create_executor

/-! ## Dispatch model (src/build/builder.rs `run`, src/build/executor.rs)

`Builder::run` and `Executor::execute` are `self.build().send().await`:
build the request once, send it once, return the outcome.  The network is
an oracle mapping requests to outcomes, and each dispatch is recorded in a
trace, so "exactly one request is sent" is visible in the embedding. -/

/-- The request handed to the HTTP client by `build()`. -/
structure Request where
  method : Method
  url : Url
  headers : Headers
  body : Option BodyType
deriving DecidableEq

/-- `Builder::build` / `Executor::build`: render the accumulated state. -/
def Builder.buildReq (b : Builder) : Request :=
  { method := b.method, url := b.url, headers := b.headers, body := b.body }

/-- The body bytes actually placed on the wire: a request built with no
body carries an empty body (`reqwest` default / `unwrap_or_default`). -/
inductive WireBody where
  | str (s : String)
  | stream (file : String)
deriving DecidableEq

/-- Wire rendering of the optional builder body. -/
def wireBodyOf : Option BodyType → WireBody
  | none => WireBody.str ""
  | some (BodyType.StringBody s) => WireBody.str s
  | some (BodyType.ReqwestBody f) => WireBody.stream f

/-- An HTTP response: status code and body text. -/
structure HttpResponse where
  status : Nat
  body : String
deriving DecidableEq

/-- Outcome of `send().await`: a response, or a transport error. -/
inductive SendOutcome where
  | success (r : HttpResponse)
  | failure
deriving DecidableEq

/-- `Builder::run`: build once, send once; the first component is the
trace of dispatched requests. -/
def Builder.run (b : Builder) (net : Request → SendOutcome) :
    List Request × SendOutcome :=
  ([b.buildReq], net b.buildReq)

/-- `Executor::execute`: identical one-shot dispatch of the wrapped state. -/
def Executor.execute (e : Executor) (net : Request → SendOutcome) :
    List Request × SendOutcome :=
  ([e.builder.buildReq], net e.builder.buildReq)

/-- The typed error struct `Error` (src/model/errors.rs), deserialized
from non-200 response bodies (camelCase keys `statusCode`, `error`,
`message`). -/
structure StorageError where
  status_code : String
  error : String
  message : String
deriving DecidableEq

/-- What a call of `Executor::execute_from::<T>` can do: return `Ok`,
return `Err`, or panic on a failed `unwrap`. -/
inductive ExecFromResult (T : Type) where
  | ok (t : T)
  | err (e : StorageError)
  | panicked
deriving DecidableEq

/-- `Executor::execute_from::<T>`: dispatch once, `unwrap` the send (panic
on transport failure), then on status 200 parse the body as `T` and on any
other status parse it as the typed error, panicking if parsing fails.
`serde_json::from_str` for `T` and for the error type are the `parseT`
and `parseErr` oracles. -/
def Executor.execute_from {T : Type} (e : Executor)
    (parseT : String → Option T) (parseErr : String → Option StorageError)
    (net : Request → SendOutcome) : List Request × ExecFromResult T :=
  match net e.builder.buildReq with
  | SendOutcome.failure => ([e.builder.buildReq], ExecFromResult.panicked)
  | SendOutcome.success response =>
    if response.status = 200 then
      match parseT response.body with
      | some result => ([e.builder.buildReq], ExecFromResult.ok result)
      | none => ([e.builder.buildReq], ExecFromResult.panicked)
    else
      match parseErr response.body with
      | some er => ([e.builder.buildReq], ExecFromResult.err er)
      | none => ([e.builder.buildReq], ExecFromResult.panicked)

/-! ## The chain of builder calls

`Builder::header` is the only public method returning the builder itself;
every other public method consumes the builder and returns an `Executor`.
A chain is therefore a sequence of `header` calls closed by one terminal
operation.  `TermOp` enumerates the terminal operations with their
arguments, and `applyTerm` dispatches to the definitions above. -/

/-- One terminal builder call, with its arguments. -/
inductive TermOp where
  | get_buckets
  | create_bucket (body : String)
  | create_bucket_from (nb : NewBucket)
  | empty_bucket (bucket_id : String)
  | get_bucket_details (bucket_id : String)
  | update_bucket (bucket_id body : String)
  | update_bucket_from (bucket_id : String) (bu : BucketUpdate)
  | delete_bucket (bucket_id : String)
  | delete_object (bucket_id object : String)
  | delete_objects (bucket_id body : String)
  | get_object (bucket_name object : String)
  | update_object_async (bucket_name object file_path : String)
  | upload_object (bucket_name object file_path : String)
  | download_object (bucket_id : String)
  | move_object (bucket_id source dest : String)
  | move_object_from (obj : MoveCopyObject)
  | copy_object (bucket_id source dest : String)
  | copy_object_from (obj : MoveCopyObject)
  | create_signed_url (bucket_name object body : String)
  | create_signed_urls (bucket_name body : String)
  | get_object_with_pre_assigned_url (bucket_name object token : String)
  | create_signed_upload_url (bucket_id object : String)
  | upload_to_signed_url_async (bucket_id object token file_path : String)
      (opts : FileOptions)
  | upload_to_signed_url_no_options_async (bucket_id object token file_path : String)
  | upload_from_file_with_pre_assigned_url (bucket_id object token file : String)
      (opts : FileOptions)
  | list_objects (bucket_id body : String)
  | get_public_object (bucket_id object : String)
  | get_public_object_info (bucket_id object : String)
  | get_object_with_transform (bucket_id object : String) (t : Transform)

/-- Apply a terminal call to a builder. -/
def applyTerm (t : TermOp) (b : Builder) : Executor :=
  match t with
  | TermOp.get_buckets => b.get_buckets
  | TermOp.create_bucket body => b.create_bucket body
  | TermOp.create_bucket_from nb => b.create_bucket_from nb
  | TermOp.empty_bucket bid => b.empty_bucket bid
  | TermOp.get_bucket_details bid => b.get_bucket_details bid
  | TermOp.update_bucket bid body => b.update_bucket bid body
  | TermOp.update_bucket_from bid bu => b.update_bucket_from bid bu
  | TermOp.delete_bucket bid => b.delete_bucket bid
  | TermOp.delete_object bid obj => b.delete_object bid obj
  | TermOp.delete_objects bid body => b.delete_objects bid body
  | TermOp.get_object bn obj => b.get_object bn obj
  | TermOp.update_object_async bn obj fp => b.update_object_async bn obj fp
  | TermOp.upload_object bn obj fp => b.upload_object bn obj fp
  | TermOp.download_object bid => b.download_object bid
  | TermOp.move_object bid s d => b.move_object bid s d
  | TermOp.move_object_from obj => b.move_object_from obj
  | TermOp.copy_object bid s d => b.copy_object bid s d
  | TermOp.copy_object_from obj => b.copy_object_from obj
  | TermOp.create_signed_url bn obj body => b.create_signed_url bn obj body
  | TermOp.create_signed_urls bn body => b.create_signed_urls bn body
  | TermOp.get_object_with_pre_assigned_url bn obj tok =>
      b.get_object_with_pre_assigned_url bn obj tok
  | TermOp.create_signed_upload_url bid obj => b.create_signed_upload_url bid obj
  | TermOp.upload_to_signed_url_async bid obj tok fp o =>
      b.upload_to_signed_url_async bid obj tok fp o
  | TermOp.upload_to_signed_url_no_options_async bid obj tok fp =>
      b.upload_to_signed_url_no_options_async bid obj tok fp
  | TermOp.upload_from_file_with_pre_assigned_url bid obj tok f o =>
      b.upload_from_file_with_pre_assigned_url bid obj tok f o
  | TermOp.list_objects bid body => b.list_objects bid body
  | TermOp.get_public_object bid obj => b.get_public_object bid obj
  | TermOp.get_public_object_info bid obj => b.get_public_object_info bid obj
  | TermOp.get_object_with_transform bid obj tr => b.get_object_with_transform bid obj tr

/-- The path segments a terminal call appends at the end of the URL path. -/
def segsAdded (t : TermOp) : List String :=
  match t with
  | TermOp.get_buckets => ["bucket"]
  | TermOp.create_bucket _ => ["bucket"]
  | TermOp.create_bucket_from _ => ["bucket"]
  | TermOp.empty_bucket bid => ["bucket", bid]
  | TermOp.get_bucket_details bid => ["bucket", bid]
  | TermOp.update_bucket bid _ => ["bucket", bid]
  | TermOp.update_bucket_from bid _ => ["bucket", bid]
  | TermOp.delete_bucket bid => ["bucket", bid]
  | TermOp.delete_object bid obj => ["object", bid, obj]
  | TermOp.delete_objects bid _ => ["object", bid]
  | TermOp.get_object bn obj => ["object", bn, obj]
  | TermOp.update_object_async bn obj _ => ["object", bn, obj]
  | TermOp.upload_object bn obj _ => ["object", bn, obj]
  | TermOp.download_object bid => ["object", bid]
  | TermOp.move_object _ _ _ => ["object", "move"]
  | TermOp.move_object_from _ => ["object", "move"]
  | TermOp.copy_object _ _ _ => ["object", "copy"]
  | TermOp.copy_object_from _ => ["object", "copy"]
  | TermOp.create_signed_url bn obj _ => ["object", "sign", bn, obj]
  | TermOp.create_signed_urls bn _ => ["object", "sign", bn]
  | TermOp.get_object_with_pre_assigned_url bn obj _ => ["object", "sign", bn, obj]
  | TermOp.create_signed_upload_url bid obj => ["object", "upload", "sign", bid, obj]
  | TermOp.upload_to_signed_url_async bid obj _ _ _ =>
      ["object", "upload", "sign", bid, obj]
  | TermOp.upload_to_signed_url_no_options_async bid obj _ _ =>
      ["object", "upload", "sign", bid, obj]
  | TermOp.upload_from_file_with_pre_assigned_url bid obj _ _ _ =>
      ["object", "upload", "sign", bid, obj]
  | TermOp.list_objects bid _ => ["object", "list", bid]
  | TermOp.get_public_object bid obj => ["object", "public", bid, obj]
  | TermOp.get_public_object_info bid obj => ["object", "info", "public", bid, obj]
  | TermOp.get_object_with_transform bid obj _ =>
      ["render", "image", "authenticated", bid, obj]

/-- The header insertions a terminal call performs, in order. -/
def headerWrites (t : TermOp) : List (String × String) :=
  match t with
  | TermOp.update_bucket _ _ => [("Content-Type", "application/json")]
  | TermOp.delete_objects _ _ => [("Content-Type", "application/json")]
  | TermOp.update_object_async _ obj _ => [("Content-Type", mime_from_path obj)]
  | TermOp.upload_object _ obj _ => [("Content-Type", mime_from_path obj)]
  | TermOp.download_object _ => [("Content-Type", "application/json")]
  | TermOp.move_object _ _ _ => [("Content-Type", "application/json")]
  | TermOp.move_object_from _ => [("Content-Type", "application/json")]
  | TermOp.copy_object _ _ _ => [("Content-Type", "application/json")]
  | TermOp.copy_object_from _ => [("Content-Type", "application/json")]
  | TermOp.create_signed_url _ _ _ => [("Content-Type", "application/json")]
  | TermOp.create_signed_urls _ _ => [("Content-Type", "application/json")]
  | TermOp.upload_to_signed_url_async _ _ _ _ o =>
      (o.cache_control.map (fun n => ("cache-control", "max-age=" ++ toString n))).toList
        ++ (o.content_type.map (fun ct => ("content-type", ct))).toList
  | TermOp.upload_to_signed_url_no_options_async _ obj _ _ =>
      [("Content-Type", mime_from_path obj)]
  | TermOp.upload_from_file_with_pre_assigned_url _ obj _ _ o =>
      (o.cache_control.map (fun n => ("cache-control", "max-age=" ++ toString n))).toList
        ++ [(match o.content_type with
             | some ct => ("content-type", ct)
             | none => ("Content-Type", mime_from_path obj))]
        ++ (o.upsert.map (fun u => ("x-upsert", jsonBool u))).toList
  | TermOp.list_objects _ _ => [("Content-Type", "application/json")]
  | _ => []

/-- Fold a list of header insertions over a header map. -/
def hFold (hs : Headers) (ws : List (String × String)) : Headers :=
  ws.foldl (fun h kv => hInsert h kv.1 kv.2) hs

/-- The query string after a terminal call, from the query before it. -/
def queryAfter (t : TermOp) (q : Option String) : Option String :=
  match t with
  | TermOp.get_object_with_pre_assigned_url _ _ tok => appendPair q "token" tok
  | TermOp.upload_to_signed_url_async _ _ tok _ _ => appendPair q "token" tok
  | TermOp.upload_to_signed_url_no_options_async _ _ tok _ => appendPair q "token" tok
  | TermOp.upload_from_file_with_pre_assigned_url _ _ tok _ _ => appendPair q "token" tok
  | TermOp.get_object_with_transform _ _ tr => some (transformQs tr)
  | _ => q

/-- Does the call replace the query wholesale (`set_query`)?  Only
`get_object_with_transform` does. -/
def setsQueryWholesale (t : TermOp) : Bool :=
  match t with
  | TermOp.get_object_with_transform _ _ _ => true
  | _ => false

/-- The body after a terminal call, from the body before it. -/
def bodyAfter (t : TermOp) (b0 : Option BodyType) : Option BodyType :=
  match t with
  | TermOp.create_bucket body => some (BodyType.StringBody body)
  | TermOp.create_bucket_from nb => some (BodyType.StringBody nb.toJson)
  | TermOp.update_bucket _ body => some (BodyType.StringBody body)
  | TermOp.update_bucket_from _ bu => some (BodyType.StringBody bu.toJson)
  | TermOp.delete_objects _ body => some (BodyType.StringBody body)
  | TermOp.update_object_async _ _ fp => some (BodyType.ReqwestBody fp)
  | TermOp.upload_object _ _ fp => some (BodyType.ReqwestBody fp)
  | TermOp.move_object bid s d =>
      some (BodyType.StringBody (MoveCopyObject.toJson
        { bucket_id := bid, source_key := s, destination_key := d }))
  | TermOp.move_object_from obj => some (BodyType.StringBody obj.toJson)
  | TermOp.copy_object bid s d =>
      some (BodyType.StringBody (MoveCopyObject.toJson
        { bucket_id := bid, source_key := s, destination_key := d }))
  | TermOp.copy_object_from obj => some (BodyType.StringBody obj.toJson)
  | TermOp.create_signed_url _ _ body => some (BodyType.StringBody body)
  | TermOp.create_signed_urls _ body => some (BodyType.StringBody body)
  | TermOp.upload_to_signed_url_async _ _ _ fp _ => some (BodyType.ReqwestBody fp)
  | TermOp.upload_to_signed_url_no_options_async _ _ _ fp =>
      some (BodyType.ReqwestBody fp)
  | TermOp.upload_from_file_with_pre_assigned_url _ _ _ f _ =>
      some (BodyType.ReqwestBody f)
  | TermOp.list_objects _ body => some (BodyType.StringBody body)
  | _ => b0

/-- Fold a sequence of `Builder::header` calls. -/
def applyCalls (b : Builder) (calls : List (String × String)) : Builder :=
  calls.foldl (fun b kv => b.header kv.1 kv.2) b

/-- A whole chain: `header` calls, then the terminal operation. -/
def runChain (b : Builder) (calls : List (String × String)) (t : TermOp) : Executor :=
  applyTerm t (applyCalls b calls)

/-! ## Effect lemmas: each terminal call realizes its summary -/

section EffectLemmas

/-- Every terminal call appends its segments at the end of the path. -/
theorem applyTerm_pathSegments (t : TermOp) (b : Builder) :
    (applyTerm t b).builder.url.pathSegments = b.url.pathSegments ++ segsAdded t := by
  cases t
  case upload_to_signed_url_async bid obj tok fp o =>
    obtain ⟨cc, ct, up⟩ := o
    cases cc <;> cases ct <;>
      simp [applyTerm, segsAdded, Builder.upload_to_signed_url_async,
        Builder.upload_sign_url, Url.pushSeg, Url.appendQueryPair,
        Builder.create_executor]
  case upload_from_file_with_pre_assigned_url bid obj tok f o =>
    obtain ⟨cc, ct, up⟩ := o
    cases cc <;> cases ct <;> cases up <;>
      simp [applyTerm, segsAdded, Builder.upload_from_file_with_pre_assigned_url,
        Builder.upload_sign_url, Url.pushSeg, Url.appendQueryPair,
        Builder.create_executor]
  all_goals
    simp [applyTerm, segsAdded, Builder.get_buckets, Builder.create_bucket,
      Builder.create_bucket_from, Builder.empty_bucket, Builder.get_bucket_details,
      Builder.update_bucket, Builder.update_bucket_from, Builder.delete_bucket,
      Builder.delete_object, Builder.delete_objects, Builder.get_object,
      Builder.update_object_async, Builder.upload_object, Builder.download_object,
      Builder.move_object, Builder.move_object_from, Builder.copy_object,
      Builder.copy_object_from, Builder.create_signed_url, Builder.create_signed_urls,
      Builder.get_object_with_pre_assigned_url, Builder.create_signed_upload_url,
      Builder.upload_to_signed_url_no_options_async, Builder.list_objects,
      Builder.get_public_object, Builder.get_public_object_info,
      Builder.get_object_with_transform, Builder.delete_object_intern,
      Builder.shared_upload, Builder.action_intern, Builder.action_intern_from,
      Builder.action_intern_explicit, Builder.upload_sign_url, Url.pushSeg,
      Url.appendQueryPair, Url.setQuery, Builder.create_executor, Action.str]

/-- Every terminal call performs exactly its listed header insertions. -/
theorem applyTerm_headers (t : TermOp) (b : Builder) :
    (applyTerm t b).builder.headers = hFold b.headers (headerWrites t) := by
  cases t
  case upload_to_signed_url_async bid obj tok fp o =>
    obtain ⟨cc, ct, up⟩ := o
    cases cc <;> cases ct <;> rfl
  case upload_from_file_with_pre_assigned_url bid obj tok f o =>
    obtain ⟨cc, ct, up⟩ := o
    cases cc <;> cases ct <;> cases up <;> rfl
  all_goals rfl

/-- Every terminal call transforms the query as summarized: appending a
pair, or (for `get_object_with_transform` only) replacing it. -/
theorem applyTerm_query (t : TermOp) (b : Builder) :
    (applyTerm t b).builder.url.query = queryAfter t b.url.query := by
  cases t
  case upload_to_signed_url_async bid obj tok fp o =>
    obtain ⟨cc, ct, up⟩ := o
    cases cc <;> cases ct <;> rfl
  case upload_from_file_with_pre_assigned_url bid obj tok f o =>
    obtain ⟨cc, ct, up⟩ := o
    cases cc <;> cases ct <;> cases up <;> rfl
  all_goals rfl

/-- Every terminal call leaves the URL base untouched. -/
theorem applyTerm_base (t : TermOp) (b : Builder) :
    (applyTerm t b).builder.url.base = b.url.base := by
  cases t
  case upload_to_signed_url_async bid obj tok fp o =>
    obtain ⟨cc, ct, up⟩ := o
    cases cc <;> cases ct <;> rfl
  case upload_from_file_with_pre_assigned_url bid obj tok f o =>
    obtain ⟨cc, ct, up⟩ := o
    cases cc <;> cases ct <;> cases up <;> rfl
  all_goals rfl

/-- Every terminal call sets the body as summarized, or leaves it alone. -/
theorem applyTerm_body (t : TermOp) (b : Builder) :
    (applyTerm t b).builder.body = bodyAfter t b.body := by
  cases t
  case upload_to_signed_url_async bid obj tok fp o =>
    obtain ⟨cc, ct, up⟩ := o
    cases cc <;> cases ct <;> rfl
  case upload_from_file_with_pre_assigned_url bid obj tok f o =>
    obtain ⟨cc, ct, up⟩ := o
    cases cc <;> cases ct <;> cases up <;> rfl
  all_goals rfl

end EffectLemmas

/-! ## Header map and chain lemmas -/

/-- Looking up after an insert: the inserted value for the same
(case-insensitive) key, the previous map otherwise. -/
theorem hLookup_hInsert (hs : Headers) (k v k' : String) :
    hLookup (hInsert hs k v) k' =
      if lowerStr k = lowerStr k' then some v else hLookup hs k' := by
  by_cases h : lowerStr k = lowerStr k' <;>
    simp [hLookup, hInsert, List.find?_cons, h]

/-- A sequence of inserts not touching a key leaves its lookup unchanged. -/
theorem hFold_lookup_notouched (ws : List (String × String)) (hs : Headers) (k : String)
    (h : ∀ kv ∈ ws, lowerStr kv.1 ≠ lowerStr k) :
    hLookup (hFold hs ws) k = hLookup hs k := by
  induction ws generalizing hs with
  | nil => rfl
  | cons kv rest ih =>
    have hrest := ih (hInsert hs kv.1 kv.2) (fun x hx => h x (List.mem_cons_of_mem _ hx))
    have hstep : hLookup (hInsert hs kv.1 kv.2) k = hLookup hs k := by
      rw [hLookup_hInsert, if_neg (h kv (List.mem_cons_self _ _))]
    calc hLookup (hFold hs (kv :: rest)) k
        = hLookup (hFold (hInsert hs kv.1 kv.2) rest) k := rfl
      _ = hLookup (hInsert hs kv.1 kv.2) k := hrest
      _ = hLookup hs k := hstep

/-- The headers of a builder after a sequence of `header` calls are the
fold of the corresponding inserts. -/
theorem applyCalls_headers (b : Builder) (calls : List (String × String)) :
    (applyCalls b calls).headers = hFold b.headers calls := by
  induction calls generalizing b with
  | nil => rfl
  | cons kv rest ih => exact ih (b.header kv.1 kv.2)

/-- A sequence of `Builder::header` calls not touching a key leaves its
lookup unchanged. -/
theorem applyCalls_lookup_notouched (calls : List (String × String)) (b : Builder)
    (k : String) (h : ∀ kv ∈ calls, lowerStr kv.1 ≠ lowerStr k) :
    hLookup (applyCalls b calls).headers k = hLookup b.headers k := by
  rw [applyCalls_headers]
  exact hFold_lookup_notouched calls b.headers k h

/-- The last `header` call for a key in a chain determines its value. -/
theorem applyCalls_lookup_last (b : Builder) (pre : List (String × String)) (k v : String)
    (post : List (String × String)) (h : ∀ kv ∈ post, lowerStr kv.1 ≠ lowerStr k) :
    hLookup (applyCalls b (pre ++ (k, v) :: post)).headers k = some v := by
  have hsplit : applyCalls b (pre ++ (k, v) :: post)
      = applyCalls ((applyCalls b pre).header k v) post := by
    unfold applyCalls
    rw [List.foldl_append]
    rfl
  rw [hsplit, applyCalls_lookup_notouched post _ k h]
  show hLookup (hInsert (applyCalls b pre).headers k v) k = some v
  rw [hLookup_hInsert, if_pos rfl]

/-- `header` calls leave the URL untouched. -/
theorem applyCalls_url (b : Builder) (calls : List (String × String)) :
    (applyCalls b calls).url = b.url := by
  induction calls generalizing b with
  | nil => rfl
  | cons kv rest ih => exact ih (b.header kv.1 kv.2)

/-- `header` calls leave the method untouched. -/
theorem applyCalls_method (b : Builder) (calls : List (String × String)) :
    (applyCalls b calls).method = b.method := by
  induction calls generalizing b with
  | nil => rfl
  | cons kv rest ih => exact ih (b.header kv.1 kv.2)

/-- `header` calls leave the body untouched. -/
theorem applyCalls_body (b : Builder) (calls : List (String × String)) :
    (applyCalls b calls).body = b.body := by
  induction calls generalizing b with
  | nil => rfl
  | cons kv rest ih => exact ih (b.header kv.1 kv.2)

/-- `append_pair` only extends the raw query string. -/
theorem appendPair_extends (q : Option String) (k v : String) :
    ∃ suffix, (appendPair q k v).getD "" = q.getD "" ++ suffix := by
  cases q with
  | none => exact ⟨formEncode k ++ "=" ++ formEncode v, rfl⟩
  | some qs =>
    by_cases h : qs = ""
    · subst h
      exact ⟨formEncode k ++ "=" ++ formEncode v, by simp [appendPair]⟩
    · exact ⟨"&" ++ (formEncode k ++ "=" ++ formEncode v), by
        simp [appendPair, h, String.append_assoc]⟩

/-! ## The claims -/

/-- C4: Bucket CRUD maps to method and path as stated.  From a fresh
builder (whose default method is GET): `get_buckets` leaves GET on
`.../bucket`; `get_bucket_details` leaves GET on `.../bucket/{id}`;
`create_bucket` and `create_bucket_from` POST to `.../bucket` with the
given resp. serialized body; `empty_bucket` POSTs to `.../bucket/{id}`;
`update_bucket` and `update_bucket_from` PUT to `.../bucket/{id}` with
the given resp. serialized body; `delete_bucket` DELETEs
`.../bucket/{id}`. -/
theorem bucket_crud_method_path (url : Url) (hs : Headers)
    (bucket_id body : String) (nb : NewBucket) (bu : BucketUpdate) :
    (((Builder.new url hs).get_buckets).builder.method = Method.GET
      ∧ ((Builder.new url hs).get_buckets).builder.url.pathSegments
          = url.pathSegments ++ ["bucket"])
    ∧ (((Builder.new url hs).get_bucket_details bucket_id).builder.method = Method.GET
      ∧ ((Builder.new url hs).get_bucket_details bucket_id).builder.url.pathSegments
          = url.pathSegments ++ ["bucket", bucket_id])
    ∧ (((Builder.new url hs).create_bucket body).builder.method = Method.POST
      ∧ ((Builder.new url hs).create_bucket body).builder.url.pathSegments
          = url.pathSegments ++ ["bucket"]
      ∧ ((Builder.new url hs).create_bucket body).builder.body
          = some (BodyType.StringBody body))
    ∧ (((Builder.new url hs).create_bucket_from nb).builder.method = Method.POST
      ∧ ((Builder.new url hs).create_bucket_from nb).builder.url.pathSegments
          = url.pathSegments ++ ["bucket"]
      ∧ ((Builder.new url hs).create_bucket_from nb).builder.body
          = some (BodyType.StringBody nb.toJson))
    ∧ (((Builder.new url hs).empty_bucket bucket_id).builder.method = Method.POST
      ∧ ((Builder.new url hs).empty_bucket bucket_id).builder.url.pathSegments
          = url.pathSegments ++ ["bucket", bucket_id])
    ∧ (((Builder.new url hs).update_bucket bucket_id body).builder.method = Method.PUT
      ∧ ((Builder.new url hs).update_bucket bucket_id body).builder.url.pathSegments
          = url.pathSegments ++ ["bucket", bucket_id]
      ∧ ((Builder.new url hs).update_bucket bucket_id body).builder.body
          = some (BodyType.StringBody body))
    ∧ (((Builder.new url hs).update_bucket_from bucket_id bu).builder.method = Method.PUT
      ∧ ((Builder.new url hs).update_bucket_from bucket_id bu).builder.url.pathSegments
          = url.pathSegments ++ ["bucket", bucket_id]
      ∧ ((Builder.new url hs).update_bucket_from bucket_id bu).builder.body
          = some (BodyType.StringBody bu.toJson))
    ∧ (((Builder.new url hs).delete_bucket bucket_id).builder.method = Method.DELETE
      ∧ ((Builder.new url hs).delete_bucket bucket_id).builder.url.pathSegments
          = url.pathSegments ++ ["bucket", bucket_id]) := by
  refine ⟨⟨rfl, ?_⟩, ⟨rfl, ?_⟩, ⟨rfl, ?_, rfl⟩, ⟨rfl, ?_, rfl⟩, ⟨rfl, ?_⟩,
    ⟨rfl, ?_, rfl⟩, ⟨rfl, ?_, rfl⟩, ⟨rfl, ?_⟩⟩ <;>
  simp [Builder.new, Builder.get_buckets, Builder.get_bucket_details,
    Builder.create_bucket, Builder.create_bucket_from, Builder.empty_bucket,
    Builder.update_bucket, Builder.update_bucket_from, Builder.delete_bucket,
    Builder.create_executor, Url.pushSeg]

/-- C5: objects are addressed by bucket plus key: `get_object(b, k)`
yields a GET executor whose path ends with `object/b/k` and carries no
body; `delete_object(b, k)` yields a DELETE executor on the same path
segments. -/
theorem object_addressing (url : Url) (hs : Headers) (bucket_name object : String) :
    (((Builder.new url hs).get_object bucket_name object).builder.method = Method.GET
      ∧ ((Builder.new url hs).get_object bucket_name object).builder.url.pathSegments
          = url.pathSegments ++ ["object", bucket_name, object]
      ∧ ((Builder.new url hs).get_object bucket_name object).builder.body = none)
    ∧ (((Builder.new url hs).delete_object bucket_name object).builder.method
          = Method.DELETE
      ∧ ((Builder.new url hs).delete_object bucket_name object).builder.url.pathSegments
          = url.pathSegments ++ ["object", bucket_name, object]) := by
  refine ⟨⟨rfl, ?_, rfl⟩, ⟨rfl, ?_⟩⟩ <;>
  simp [Builder.new, Builder.get_object, Builder.delete_object,
    Builder.delete_object_intern, Builder.create_executor, Url.pushSeg]

/-- C6: signed-URL download is token-authorized via the URL:
`get_object_with_pre_assigned_url(b, k, t)` is a GET on
`object/sign/b/k` with the query pair `token=t` appended;
`create_signed_url(b, k, body)` is a POST on `object/sign/b/k` with
`Content-Type: application/json` and the given body;
`create_signed_urls(b, body)` is a POST on `object/sign/b`. -/
theorem signed_url_addressing (url : Url) (hs : Headers)
    (bucket_name object token body : String) :
    (((Builder.new url hs).get_object_with_pre_assigned_url bucket_name object
          token).builder.method = Method.GET
      ∧ ((Builder.new url hs).get_object_with_pre_assigned_url bucket_name object
          token).builder.url.pathSegments
          = url.pathSegments ++ ["object", "sign", bucket_name, object]
      ∧ ((Builder.new url hs).get_object_with_pre_assigned_url bucket_name object
          token).builder.url.query = appendPair url.query "token" token)
    ∧ (((Builder.new url hs).create_signed_url bucket_name object
          body).builder.method = Method.POST
      ∧ ((Builder.new url hs).create_signed_url bucket_name object
          body).builder.url.pathSegments
          = url.pathSegments ++ ["object", "sign", bucket_name, object]
      ∧ hLookup ((Builder.new url hs).create_signed_url bucket_name object
          body).builder.headers "Content-Type" = some "application/json"
      ∧ ((Builder.new url hs).create_signed_url bucket_name object body).builder.body
          = some (BodyType.StringBody body))
    ∧ (((Builder.new url hs).create_signed_urls bucket_name
          body).builder.method = Method.POST
      ∧ ((Builder.new url hs).create_signed_urls bucket_name
          body).builder.url.pathSegments
          = url.pathSegments ++ ["object", "sign", bucket_name]
      ∧ ((Builder.new url hs).create_signed_urls bucket_name body).builder.body
          = some (BodyType.StringBody body)) := by
  refine ⟨⟨rfl, ?_, rfl⟩, ⟨rfl, ?_, ?_, rfl⟩, ⟨rfl, ?_, rfl⟩⟩
  case refine_3 =>
    show hLookup (hInsert hs "Content-Type" "application/json") "Content-Type"
        = some "application/json"
    rw [hLookup_hInsert, if_pos rfl]
  all_goals
    simp [Builder.new, Builder.get_object_with_pre_assigned_url,
      Builder.create_signed_url, Builder.create_signed_urls,
      Builder.create_executor, Url.pushSeg, Url.appendQueryPair]

/-- C10: the explicit and struct-based move/copy entry points are
equivalent: `move_object(b, f, t)` yields the very same executor as
`move_object_from` of the corresponding struct — same method POST, same
path `object/move`, same headers and same serialized body — and likewise
for `copy_object` with path `object/copy`. -/
theorem move_copy_equivalence (b : Builder) (bucket_id source dest : String) :
    (b.move_object bucket_id source dest
        = b.move_object_from
            { bucket_id := bucket_id, source_key := source, destination_key := dest }
      ∧ b.copy_object bucket_id source dest
        = b.copy_object_from
            { bucket_id := bucket_id, source_key := source, destination_key := dest })
    ∧ ((b.move_object bucket_id source dest).builder.method = Method.POST
      ∧ (b.copy_object bucket_id source dest).builder.method = Method.POST)
    ∧ ((b.move_object bucket_id source dest).builder.url.pathSegments
          = b.url.pathSegments ++ ["object", "move"]
      ∧ (b.copy_object bucket_id source dest).builder.url.pathSegments
          = b.url.pathSegments ++ ["object", "copy"])
    ∧ ((b.move_object bucket_id source dest).builder.body
          = some (BodyType.StringBody (MoveCopyObject.toJson
              { bucket_id := bucket_id, source_key := source, destination_key := dest }))
      ∧ (b.copy_object bucket_id source dest).builder.body
          = some (BodyType.StringBody (MoveCopyObject.toJson
              { bucket_id := bucket_id, source_key := source,
                destination_key := dest }))) := by
  refine ⟨⟨rfl, rfl⟩, ⟨rfl, rfl⟩, ⟨?_, ?_⟩, ⟨rfl, rfl⟩⟩ <;>
  simp [Builder.move_object, Builder.copy_object, Builder.action_intern_explicit,
    Builder.action_intern, Builder.create_executor, Url.pushSeg, Action.str]

/-- C8: the request body is enum-tagged with exactly two shapes, and each
operation sets the matching one: JSON-carrying operations set a string
body equal to the caller-supplied JSON or the serialization of the given
struct, file-upload operations set a byte-stream body, and the operations
that set no body leave a fresh builder's body unset, which is dispatched
as an empty body. -/
theorem body_shapes (url : Url) (hs : Headers) (b : Builder)
    (body bucket_id bucket_name object source dest token file_path : String)
    (nb : NewBucket) (bu : BucketUpdate) (mo : MoveCopyObject) (o : FileOptions)
    (tr : Transform) :
    (∀ bt : BodyType,
      (∃ s, bt = BodyType.StringBody s) ∨ (∃ f, bt = BodyType.ReqwestBody f))
    ∧ (b.create_bucket body).builder.body = some (BodyType.StringBody body)
    ∧ (b.create_bucket_from nb).builder.body = some (BodyType.StringBody nb.toJson)
    ∧ (b.update_bucket bucket_id body).builder.body = some (BodyType.StringBody body)
    ∧ (b.update_bucket_from bucket_id bu).builder.body
        = some (BodyType.StringBody bu.toJson)
    ∧ (b.list_objects bucket_id body).builder.body = some (BodyType.StringBody body)
    ∧ (b.create_signed_url bucket_name object body).builder.body
        = some (BodyType.StringBody body)
    ∧ (b.create_signed_urls bucket_name body).builder.body
        = some (BodyType.StringBody body)
    ∧ (b.delete_objects bucket_id body).builder.body = some (BodyType.StringBody body)
    ∧ (b.move_object bucket_id source dest).builder.body
        = some (BodyType.StringBody (MoveCopyObject.toJson
            { bucket_id := bucket_id, source_key := source, destination_key := dest }))
    ∧ (b.copy_object bucket_id source dest).builder.body
        = some (BodyType.StringBody (MoveCopyObject.toJson
            { bucket_id := bucket_id, source_key := source, destination_key := dest }))
    ∧ (b.move_object_from mo).builder.body = some (BodyType.StringBody mo.toJson)
    ∧ (b.copy_object_from mo).builder.body = some (BodyType.StringBody mo.toJson)
    ∧ (b.upload_object bucket_name object file_path).builder.body
        = some (BodyType.ReqwestBody file_path)
    ∧ (b.update_object_async bucket_name object file_path).builder.body
        = some (BodyType.ReqwestBody file_path)
    ∧ (b.upload_to_signed_url_async bucket_id object token file_path o).builder.body
        = some (BodyType.ReqwestBody file_path)
    ∧ (b.upload_to_signed_url_no_options_async bucket_id object token
        file_path).builder.body = some (BodyType.ReqwestBody file_path)
    ∧ (b.upload_from_file_with_pre_assigned_url bucket_id object token file_path
        o).builder.body = some (BodyType.ReqwestBody file_path)
    ∧ ((Builder.new url hs).get_buckets).builder.body = none
    ∧ ((Builder.new url hs).get_bucket_details bucket_id).builder.body = none
    ∧ ((Builder.new url hs).empty_bucket bucket_id).builder.body = none
    ∧ ((Builder.new url hs).delete_bucket bucket_id).builder.body = none
    ∧ ((Builder.new url hs).get_object bucket_name object).builder.body = none
    ∧ ((Builder.new url hs).delete_object bucket_id object).builder.body = none
    ∧ ((Builder.new url hs).download_object bucket_id).builder.body = none
    ∧ ((Builder.new url hs).get_object_with_pre_assigned_url bucket_name object
        token).builder.body = none
    ∧ ((Builder.new url hs).create_signed_upload_url bucket_id object).builder.body
        = none
    ∧ ((Builder.new url hs).get_public_object bucket_id object).builder.body = none
    ∧ ((Builder.new url hs).get_public_object_info bucket_id object).builder.body
        = none
    ∧ ((Builder.new url hs).get_object_with_transform bucket_id object
        tr).builder.body = none
    ∧ wireBodyOf none = WireBody.str "" := by
  refine ⟨fun bt => ?_, rfl, rfl, rfl, rfl, rfl, rfl, rfl, rfl, rfl, rfl, rfl, rfl,
    rfl, rfl, rfl, rfl, rfl, rfl, rfl, rfl, rfl, rfl, rfl, rfl, rfl, rfl, rfl,
    rfl, rfl, rfl⟩
  cases bt with
  | StringBody s => exact Or.inl ⟨s, rfl⟩
  | ReqwestBody f => exact Or.inr ⟨f, rfl⟩

/-- C3: one call of `run` (resp. `execute`, `execute_from`) dispatches
exactly one HTTP request — the trace of dispatched requests is the
singleton of the built request, independent of the outcome of the send:
no retry, no caching, no second dispatch. -/
theorem single_dispatch {T : Type} (b : Builder) (e : Executor)
    (parseT : String → Option T) (parseErr : String → Option StorageError)
    (net : Request → SendOutcome) :
    (b.run net).1 = [b.buildReq]
    ∧ (e.execute net).1 = [e.builder.buildReq]
    ∧ (e.execute_from parseT parseErr net).1 = [e.builder.buildReq] := by
  refine ⟨rfl, rfl, ?_⟩
  unfold Executor.execute_from
  cases hnet : net e.builder.buildReq with
  | failure => rfl
  | success resp =>
    by_cases hst : resp.status = 200
    · cases hp : parseT resp.body <;> simp [hst, hp]
    · cases hp : parseErr resp.body <;> simp [hst, hp]

/-- C1: `execute_from` deserializes the response into a typed result or a
typed error: when the send yields a response whose body parses as the
requested type and as the typed error, the call returns `Ok` of the
parsed value exactly when the status is 200, and returns `Err` of the
parsed typed error exactly when the status is anything else. -/
theorem execute_from_typed_result {T : Type} (parseT : String → Option T)
    (parseErr : String → Option StorageError) (e : Executor)
    (net : Request → SendOutcome) (resp : HttpResponse) (t : T) (er : StorageError)
    (hnet : net e.builder.buildReq = SendOutcome.success resp)
    (ht : parseT resp.body = some t) (her : parseErr resp.body = some er) :
    ((e.execute_from parseT parseErr net).2 = ExecFromResult.ok t
        ↔ resp.status = 200)
    ∧ ((e.execute_from parseT parseErr net).2 = ExecFromResult.err er
        ↔ resp.status ≠ 200) := by
  unfold Executor.execute_from
  rw [hnet]
  by_cases hst : resp.status = 200
  · simp [hst, ht]
  · simp [hst, her]

/-- C9: `execute_from` is partial at the public interface: a transport
failure, a 200 body that does not parse as the requested type, or a
non-200 body that does not parse as the typed error all panic rather than
return; hence an `Err` (resp. `Ok`) result always comes from a received
response whose body parsed as the typed error (resp. the type), and
transport failures are never reported as values. -/
theorem execute_from_partiality {T : Type} (parseT : String → Option T)
    (parseErr : String → Option StorageError) (e : Executor)
    (net : Request → SendOutcome) :
    (net e.builder.buildReq = SendOutcome.failure →
      (e.execute_from parseT parseErr net).2 = ExecFromResult.panicked)
    ∧ (∀ resp, net e.builder.buildReq = SendOutcome.success resp →
        resp.status = 200 → parseT resp.body = none →
        (e.execute_from parseT parseErr net).2 = ExecFromResult.panicked)
    ∧ (∀ resp, net e.builder.buildReq = SendOutcome.success resp →
        resp.status ≠ 200 → parseErr resp.body = none →
        (e.execute_from parseT parseErr net).2 = ExecFromResult.panicked)
    ∧ (∀ er, (e.execute_from parseT parseErr net).2 = ExecFromResult.err er →
        ∃ resp, net e.builder.buildReq = SendOutcome.success resp
          ∧ resp.status ≠ 200 ∧ parseErr resp.body = some er)
    ∧ (∀ t, (e.execute_from parseT parseErr net).2 = ExecFromResult.ok t →
        ∃ resp, net e.builder.buildReq = SendOutcome.success resp
          ∧ resp.status = 200 ∧ parseT resp.body = some t) := by
  refine ⟨?_, ?_, ?_, ?_, ?_⟩
  · intro h
    unfold Executor.execute_from
    rw [h]
  · intro resp h h200 hp
    unfold Executor.execute_from
    rw [h]
    simp [h200, hp]
  · intro resp h h200 hp
    unfold Executor.execute_from
    rw [h]
    simp [h200, hp]
  · intro er her
    unfold Executor.execute_from at her
    cases hn : net e.builder.buildReq with
    | failure => rw [hn] at her; simp at her
    | success resp =>
      rw [hn] at her
      by_cases h200 : resp.status = 200
      · simp only [h200, if_true] at her
        cases hp : parseT resp.body <;> rw [hp] at her <;> simp at her
      · simp only [h200, if_false, if_neg h200] at her
        cases hp : parseErr resp.body with
        | some er2 =>
          rw [hp] at her
          simp at her
          subst her
          exact ⟨resp, rfl, h200, hp⟩
        | none => rw [hp] at her; simp at her
  · intro t ht
    unfold Executor.execute_from at ht
    cases hn : net e.builder.buildReq with
    | failure => rw [hn] at ht; simp at ht
    | success resp =>
      rw [hn] at ht
      by_cases h200 : resp.status = 200
      · simp only [h200, if_true] at ht
        cases hp : parseT resp.body with
        | some v =>
          rw [hp] at ht
          simp at ht
          subst ht
          exact ⟨resp, rfl, h200, hp⟩
        | none => rw [hp] at ht; simp at ht
      · simp only [h200, if_false, if_neg h200] at ht
        cases hp : parseErr resp.body <;> rw [hp] at ht <;> simp at ht

/-! ## Concrete inputs for the witnesses -/

/-- A localhost base URL, as in the repository's unit tests. -/
def egUrl : Url :=
  { base := "http://localhost", pathSegments := [], query := none }

/-- A fresh builder on the localhost URL with no headers. -/
def egBuilder : Builder :=
  Builder.new egUrl []

/-- An executor for `GET .../bucket/thefux`, as in the crate's examples. -/
def egExec : Executor :=
  egBuilder.get_bucket_details "thefux"

/-- A network oracle answering every request with `200`, body `"7"`. -/
def egNetOk : Request → SendOutcome :=
  fun _ => SendOutcome.success { status := 200, body := "7" }

/-- A network oracle failing every request at the transport level. -/
def egNetFail : Request → SendOutcome :=
  fun _ => SendOutcome.failure

/-- A toy typed parser recognizing exactly the body `"7"`. -/
def egParseNat : String → Option Nat :=
  fun s => if s = "7" then some 7 else none

/-- A concrete typed error. -/
def egError : StorageError :=
  { status_code := "404", error := "not_found", message := "missing" }

/-- A typed-error parser accepting every body. -/
def egParseErr : String → Option StorageError :=
  fun _ => some egError

/-- Witness for C1 at the concrete executor, network and parsers. -/
theorem execute_from_typed_result_witness :
    ((egExec.execute_from egParseNat egParseErr egNetOk).2 = ExecFromResult.ok 7
        ↔ (200 : Nat) = 200)
    ∧ ((egExec.execute_from egParseNat egParseErr egNetOk).2
          = ExecFromResult.err egError
        ↔ (200 : Nat) ≠ 200) :=
  execute_from_typed_result egParseNat egParseErr egExec egNetOk
    { status := 200, body := "7" } 7 egError rfl rfl rfl

/-- Witness for C9: a transport failure makes the concrete call panic. -/
theorem execute_from_partiality_witness :
    (egExec.execute_from egParseNat egParseErr egNetFail).2
      = ExecFromResult.panicked :=
  (execute_from_partiality egParseNat egParseErr egExec egNetFail).1 rfl

/-! ## Header-name normalizations used by the presigned-upload claim -/

/-- `Content-Type` normalizes to `content-type`. -/
theorem lower_CT : lowerStr "Content-Type" = "content-type" := rfl

/-- `content-type` is already lowercase. -/
theorem lower_ct_lc : lowerStr "content-type" = "content-type" := rfl

/-- `cache-control` is already lowercase. -/
theorem lower_cc : lowerStr "cache-control" = "cache-control" := rfl

/-- `x-upsert` is already lowercase. -/
theorem lower_xu : lowerStr "x-upsert" = "x-upsert" := rfl

/-- C7: `upload_from_file_with_pre_assigned_url(b, k, t, file, o)` from a
fresh builder without those headers yields a PUT on
`object/upload/sign/b/k` with the query pair `token=t` appended; its
content-type header equals `o.content_type` when present and otherwise
the MIME type guessed from the object name; its cache-control header is
`max-age=<n>` exactly when `o.cache_control = Some n`; and its x-upsert
header is `true`/`false` exactly when `o.upsert` is present. -/
theorem presigned_upload_headers (url : Url) (hs : Headers)
    (bucket_id object token file : String) (o : FileOptions)
    (hcc : hLookup hs "cache-control" = none)
    (hup : hLookup hs "x-upsert" = none) :
    ((Builder.new url hs).upload_from_file_with_pre_assigned_url bucket_id object token
        file o).builder.method = Method.PUT
    ∧ ((Builder.new url hs).upload_from_file_with_pre_assigned_url bucket_id object
        token file o).builder.url.pathSegments
        = url.pathSegments ++ ["object", "upload", "sign", bucket_id, object]
    ∧ ((Builder.new url hs).upload_from_file_with_pre_assigned_url bucket_id object
        token file o).builder.url.query = appendPair url.query "token" token
    ∧ hLookup ((Builder.new url hs).upload_from_file_with_pre_assigned_url bucket_id
        object token file o).builder.headers "content-type"
        = some (match o.content_type with
                | some ct => ct
                | none => mime_from_path object)
    ∧ (match o.cache_control with
       | some n =>
          hLookup ((Builder.new url hs).upload_from_file_with_pre_assigned_url
            bucket_id object token file o).builder.headers "cache-control"
            = some ("max-age=" ++ toString n)
       | none =>
          hLookup ((Builder.new url hs).upload_from_file_with_pre_assigned_url
            bucket_id object token file o).builder.headers "cache-control" = none)
    ∧ (match o.upsert with
       | some u =>
          hLookup ((Builder.new url hs).upload_from_file_with_pre_assigned_url
            bucket_id object token file o).builder.headers "x-upsert"
            = some (jsonBool u)
       | none =>
          hLookup ((Builder.new url hs).upload_from_file_with_pre_assigned_url
            bucket_id object token file o).builder.headers "x-upsert" = none) := by
  obtain ⟨cc, ct, up⟩ := o
  cases cc <;> cases ct <;> cases up <;>
    refine ⟨rfl, ?_, rfl, ?_, ?_, ?_⟩ <;>
    simp [Builder.new, Builder.upload_from_file_with_pre_assigned_url,
      Builder.upload_sign_url, Builder.create_executor, Url.pushSeg,
      Url.appendQueryPair, hLookup_hInsert, lower_CT, lower_ct_lc, lower_cc,
      lower_xu, hcc, hup]

/-- Witness for C7 at concrete arguments with all options present. -/
theorem presigned_upload_headers_witness :
    ((Builder.new egUrl []).upload_from_file_with_pre_assigned_url "bkt" "obj" "tkn"
        "file.bin" ⟨some 3600, some "application/pdf", some true⟩).builder.method
      = Method.PUT :=
  (presigned_upload_headers egUrl [] "bkt" "obj" "tkn" "file.bin"
    ⟨some 3600, some "application/pdf", some true⟩ rfl rfl).1

/-- C2: across a chain of builder calls (`header` calls closed by a
terminal operation), path segments are only ever appended, query
parameters are only ever appended (except that `get_object_with_transform`
sets the transform options as the query), a header set by an earlier call
in the chain and not replaced later is still present on the final
executor, and the terminal call either sets the body or leaves it as
accumulated — nothing accumulated earlier is discarded. -/
theorem builder_accumulates (b : Builder) (calls : List (String × String))
    (t : TermOp) :
    (runChain b calls t).builder.url.pathSegments
        = b.url.pathSegments ++ segsAdded t
    ∧ (runChain b calls t).builder.url.query = queryAfter t b.url.query
    ∧ (setsQueryWholesale t = false →
        ∃ suffix, ((runChain b calls t).builder.url.query).getD ""
          = (b.url.query).getD "" ++ suffix)
    ∧ (∀ pre post k v, calls = pre ++ (k, v) :: post →
        (∀ kv ∈ post, lowerStr kv.1 ≠ lowerStr k) →
        (∀ kv ∈ headerWrites t, lowerStr kv.1 ≠ lowerStr k) →
        hLookup (runChain b calls t).builder.headers k = some v)
    ∧ (runChain b calls t).builder.body = bodyAfter t b.body := by
  refine ⟨?_, ?_, ?_, ?_, ?_⟩
  · show (applyTerm t (applyCalls b calls)).builder.url.pathSegments = _
    rw [applyTerm_pathSegments, applyCalls_url]
  · show (applyTerm t (applyCalls b calls)).builder.url.query = _
    rw [applyTerm_query, applyCalls_url]
  · intro hset
    show ∃ suffix, ((applyTerm t (applyCalls b calls)).builder.url.query).getD "" = _
    rw [applyTerm_query, applyCalls_url]
    cases t <;>
      first
      | exact Bool.noConfusion hset
      | exact appendPair_extends _ _ _
      | exact ⟨"", (String.append_empty _).symm⟩
  · intro pre post k v hcalls hpost hterm
    subst hcalls
    show hLookup (applyTerm t (applyCalls b (pre ++ (k, v) :: post))).builder.headers k
        = some v
    rw [applyTerm_headers,
      hFold_lookup_notouched (headerWrites t)
        (applyCalls b (pre ++ (k, v) :: post)).headers k hterm]
    exact applyCalls_lookup_last b pre k v post hpost
  · show (applyTerm t (applyCalls b calls)).builder.body = _
    rw [applyTerm_body, applyCalls_body]

/-- A concrete terminal operation for the chain witness. -/
def egTermOp : TermOp :=
  TermOp.get_object_with_pre_assigned_url "bkt" "obj" "tkn"

/-- Witness for C2: an `Authorization` header set by an earlier call in a
concrete chain is still present on the dispatched executor. -/
theorem builder_accumulates_witness :
    hLookup (runChain egBuilder [("Authorization", "Bearer tok")]
        egTermOp).builder.headers "Authorization" = some "Bearer tok" :=
  (builder_accumulates egBuilder [("Authorization", "Bearer tok")] egTermOp).2.2.2.1
    [] [] "Authorization" "Bearer tok" rfl
    (fun kv h => absurd h (List.not_mem_nil kv))
    (fun kv h => absurd h (List.not_mem_nil kv))

end SupabaseStorage
